import Mathlib

/-!
Shallow embedding of the binary record codec of the cape repository
(file src/unnamed/part_001, a C extension writing Fortran-style
unformatted sequential records).

Modelling conventions:
* Machine integers are Nat bit patterns; 32-bit (resp. 64-bit) wraparound
  is explicit via % 2^32 (resp. % 2^64).  An int value is identified with
  its unsigned 32-bit pattern; a double with its unsigned 64-bit pattern.
* The host byte order probed by the C function is_le() is an explicit
  parameter hostLE : Bool threaded through every function that directly
  or indirectly depends on it (fwrite dumps raw memory, so the memory
  image of a multi-byte value depends on the host order).
* FILE* is modelled by Sink: a remaining byte capacity (the sink accepts
  at most that many further bytes, then refuses), the byte list actually
  accepted so far, and the trace of attempted fwrite calls (every fwrite
  records the full byte string it was asked to write, whether or not the
  sink accepted it).  fwrite with item count 1 returns 1 iff the whole
  item was accepted, matching C fwrite semantics.
* PyArrayObject is modelled by NpArr: the list of extents (PyArray_NDIM
  is its length, PyArray_DIM i its i-th entry) and an element accessor
  giving the raw bit pattern at a multi-index (the np1i/np2i/np3i and
  np1d/np3d macros of capec_NumPy.h); unused trailing indices are 0.
* The implicit C conversion from double to float (IEEE-754 narrowing,
  performed by the platform) is an explicit parameter
  d2f : Nat -> Nat from 64-bit patterns to 32-bit patterns wherever the
  source performs it; no claim below depends on its value.
-/

/-- Little-endian byte list of the low 32 bits of a value. -/
def le4 (v : Nat) : List Nat :=
  [v % 2^8, v / 2^8 % 2^8, v / 2^16 % 2^8, v / 2^24 % 2^8]

/-- Little-endian byte list of the low 64 bits of a value. -/
def le8 (v : Nat) : List Nat :=
  [v % 2^8, v / 2^8 % 2^8, v / 2^16 % 2^8, v / 2^24 % 2^8,
   v / 2^32 % 2^8, v / 2^40 % 2^8, v / 2^48 % 2^8, v / 2^56 % 2^8]

/-- Reassemble a little-endian byte list into a value. -/
def ofBytesLE : List Nat → Nat
  | [] => 0
  | b :: rest => b + 2^8 * ofBytesLE rest

/-- Embedding of __bswap_32: reverse the four bytes of a 32-bit value. -/
def bswap32 (v : Nat) : Nat := ofBytesLE (le4 v).reverse

/-- Embedding of __bswap_64: reverse the eight bytes of a 64-bit value. -/
def bswap64 (v : Nat) : Nat := ofBytesLE (le8 v).reverse

/-- In-memory byte image of a 32-bit value on a host of the given order
(what fwrite of an int dumps): little-endian hosts store the low byte
first, big-endian hosts the reverse. -/
def mem4 (hostLE : Bool) (v : Nat) : List Nat :=
  if hostLE then le4 v else (le4 v).reverse

/-- In-memory byte image of a 64-bit value on a host of the given order. -/
def mem8 (hostLE : Bool) (v : Nat) : List Nat :=
  if hostLE then le8 v else (le8 v).reverse

/-- Model of FILE*: remaining byte capacity, bytes accepted so far, and
the trace of byte strings each fwrite call attempted to write. -/
structure Sink where
  cap : Nat
  out : List Nat
  atts : List (List Nat)
deriving DecidableEq, Repr

/-- Embedding of fwrite(ptr, size, 1, fid) where bytes is the size-byte
memory image at ptr: the sink accepts as many bytes as capacity allows;
the returned item count is 1 iff the whole item was accepted. -/
def fwrite (fid : Sink) (bytes : List Nat) : Sink × Nat :=
  let k := min fid.cap bytes.length
  (⟨fid.cap - k, fid.out ++ bytes.take k, fid.atts ++ [bytes]⟩,
   if bytes.length ≤ fid.cap then 1 else 0)

/-- Sequence of fwrite calls, one per byte chunk, return values ignored
(the record-writing loops of the source never inspect them). -/
def writeList : Sink → List (List Nat) → Sink
  | fid, [] => fid
  | fid, c :: rest => writeList (fwrite fid c).1 rest

/-- Model of PyArrayObject: extents plus raw element bit pattern at a
multi-index (trailing indices 0 for lower ranks). -/
structure NpArr where
  dims : List Nat
  get : Nat → Nat → Nat → Nat

/-- Embedding of capec_Write_b4_i (part_001 lines 84-103): write one
big-endian 32-bit integer, swapping on little-endian hosts; returns 0 on
a complete write and 1 on a short write. -/
def capec_Write_b4_i (hostLE : Bool) (fid : Sink) (v : Nat) : Sink × Nat :=
  if hostLE then
    let u := bswap32 (v % 2^32)
    let r := fwrite fid (mem4 hostLE u)
    (r.1, if r.2 = 1 then 0 else 1)
  else
    let r := fwrite fid (mem4 hostLE (v % 2^32))
    (r.1, if r.2 = 1 then 0 else 1)

/-- Embedding of capec_Write_lb4_i (part_001 lines 106-125): write one
little-endian 32-bit integer, swapping on big-endian hosts. -/
def capec_Write_lb4_i (hostLE : Bool) (fid : Sink) (v : Nat) : Sink × Nat :=
  if hostLE then
    let r := fwrite fid (mem4 hostLE (v % 2^32))
    (r.1, if r.2 = 1 then 0 else 1)
  else
    let u := bswap32 (v % 2^32)
    let r := fwrite fid (mem4 hostLE u)
    (r.1, if r.2 = 1 then 0 else 1)

/-- Embedding of capec_Write_b4_d (part_001 lines 174-188): byte-swap the
double on little-endian hosts, then fwrite with item size sizeof(int),
i.e. only the FIRST FOUR BYTES of the 8-byte memory image. -/
def capec_Write_b4_d (hostLE : Bool) (fid : Sink) (v : Nat) : Sink × Nat :=
  let w := if hostLE then bswap64 (v % 2^64) else v % 2^64
  let r := fwrite fid ((mem8 hostLE w).take 4)
  (r.1, if r.2 = 1 then 0 else 1)

/-- Embedding of capec_Write_lb4_d (part_001 lines 191-205): byte-swap the
double on big-endian hosts, then fwrite with item size sizeof(int),
i.e. only the first four bytes of the 8-byte memory image. -/
def capec_Write_lb4_d (hostLE : Bool) (fid : Sink) (v : Nat) : Sink × Nat :=
  let w := if hostLE then v % 2^64 else bswap64 (v % 2^64)
  let r := fwrite fid ((mem8 hostLE w).take 4)
  (r.1, if r.2 = 1 then 0 else 1)

/-- Embedding of capec_WriteRecord_ne4_i1 (part_001 lines 213-242):
native-order 1-D int record; fwrite return values are ignored. -/
def capec_WriteRecord_ne4_i1 (hostLE : Bool) (fid : Sink) (P : NpArr) : Sink × Nat :=
  if P.dims.length ≠ 1 then (fid, 2) else
    let n := P.dims.getD 0 0
    let nb := n * 4 % 2^32
    let fid1 := (fwrite fid (mem4 hostLE nb)).1
    let fid2 := writeList fid1 ((List.range n).map fun i => mem4 hostLE (P.get i 0 0 % 2^32))
    let fid3 := (fwrite fid2 (mem4 hostLE nb)).1
    (fid3, 0)

/-- Embedding of capec_WriteRecord_bs4_i1 (part_001 lines 245-274):
byte-swapped 1-D int record. -/
def capec_WriteRecord_bs4_i1 (hostLE : Bool) (fid : Sink) (P : NpArr) : Sink × Nat :=
  if P.dims.length ≠ 1 then (fid, 2) else
    let n := P.dims.getD 0 0
    let nb := bswap32 (n * 4 % 2^32)
    let fid1 := (fwrite fid (mem4 hostLE nb)).1
    let fid2 := writeList fid1
      ((List.range n).map fun i => mem4 hostLE (bswap32 (P.get i 0 0 % 2^32)))
    let fid3 := (fwrite fid2 (mem4 hostLE nb)).1
    (fid3, 0)

/-- Embedding of capec_WriteRecord_b4_i1 (part_001 lines 277-284). -/
def capec_WriteRecord_b4_i1 (hostLE : Bool) (fid : Sink) (P : NpArr) : Sink × Nat :=
  if hostLE then capec_WriteRecord_bs4_i1 hostLE fid P
  else capec_WriteRecord_ne4_i1 hostLE fid P

/-- Embedding of capec_WriteRecord_lb4_i1 (part_001 lines 287-294). -/
def capec_WriteRecord_lb4_i1 (hostLE : Bool) (fid : Sink) (P : NpArr) : Sink × Nat :=
  if hostLE then capec_WriteRecord_ne4_i1 hostLE fid P
  else capec_WriteRecord_bs4_i1 hostLE fid P

/-- Embedding of capec_WriteRecord_ne4_f1 (part_001 lines 504-533):
native-order 1-D single-precision record; each element is the double
np1d(P,i) narrowed to float by the assignment, modelled by d2f. -/
def capec_WriteRecord_ne4_f1 (d2f : Nat → Nat) (hostLE : Bool) (fid : Sink) (P : NpArr) :
    Sink × Nat :=
  if P.dims.length ≠ 1 then (fid, 2) else
    let n := P.dims.getD 0 0
    let nb := n * 4 % 2^32
    let fid1 := (fwrite fid (mem4 hostLE nb)).1
    let fid2 := writeList fid1
      ((List.range n).map fun i => mem4 hostLE (d2f (P.get i 0 0 % 2^64) % 2^32))
    let fid3 := (fwrite fid2 (mem4 hostLE nb)).1
    (fid3, 0)

/-- Embedding of capec_WriteRecord_bs4_f1 (part_001 lines 536-565). -/
def capec_WriteRecord_bs4_f1 (d2f : Nat → Nat) (hostLE : Bool) (fid : Sink) (P : NpArr) :
    Sink × Nat :=
  if P.dims.length ≠ 1 then (fid, 2) else
    let n := P.dims.getD 0 0
    let nb := bswap32 (n * 4 % 2^32)
    let fid1 := (fwrite fid (mem4 hostLE nb)).1
    let fid2 := writeList fid1
      ((List.range n).map fun i => mem4 hostLE (bswap32 (d2f (P.get i 0 0 % 2^64) % 2^32)))
    let fid3 := (fwrite fid2 (mem4 hostLE nb)).1
    (fid3, 0)

/-- Embedding of capec_WriteRecord_b4_f1 (part_001 lines 568-575). -/
def capec_WriteRecord_b4_f1 (d2f : Nat → Nat) (hostLE : Bool) (fid : Sink) (P : NpArr) :
    Sink × Nat :=
  if hostLE then capec_WriteRecord_bs4_f1 d2f hostLE fid P
  else capec_WriteRecord_ne4_f1 d2f hostLE fid P

/-- Embedding of capec_WriteRecord_lb4_f1 (part_001 lines 578-585). -/
def capec_WriteRecord_lb4_f1 (d2f : Nat → Nat) (hostLE : Bool) (fid : Sink) (P : NpArr) :
    Sink × Nat :=
  if hostLE then capec_WriteRecord_ne4_f1 d2f hostLE fid P
  else capec_WriteRecord_bs4_f1 d2f hostLE fid P

/-- Embedding of capec_WriteRecord_ne4_i2 (part_001 lines 302-335):
native-order 2-D int record, outer index i then inner index j. -/
def capec_WriteRecord_ne4_i2 (hostLE : Bool) (fid : Sink) (P : NpArr) : Sink × Nat :=
  if P.dims.length ≠ 2 then (fid, 2) else
    let m := P.dims.getD 0 0
    let n := P.dims.getD 1 0
    let nb := m * n * 4 % 2^32
    let fid1 := (fwrite fid (mem4 hostLE nb)).1
    let fid2 := writeList fid1
      (((List.range m).map fun i =>
        (List.range n).map fun j => mem4 hostLE (P.get i j 0 % 2^32)).flatten)
    let fid3 := (fwrite fid2 (mem4 hostLE nb)).1
    (fid3, 0)

/-- Embedding of capec_WriteRecord_bs4_i2 (part_001 lines 338-371). -/
def capec_WriteRecord_bs4_i2 (hostLE : Bool) (fid : Sink) (P : NpArr) : Sink × Nat :=
  if P.dims.length ≠ 2 then (fid, 2) else
    let m := P.dims.getD 0 0
    let n := P.dims.getD 1 0
    let nb := bswap32 (m * n * 4 % 2^32)
    let fid1 := (fwrite fid (mem4 hostLE nb)).1
    let fid2 := writeList fid1
      (((List.range m).map fun i =>
        (List.range n).map fun j => mem4 hostLE (bswap32 (P.get i j 0 % 2^32))).flatten)
    let fid3 := (fwrite fid2 (mem4 hostLE nb)).1
    (fid3, 0)

/-- Embedding of capec_WriteRecord_b4_i2 (part_001 lines 374-381). -/
def capec_WriteRecord_b4_i2 (hostLE : Bool) (fid : Sink) (P : NpArr) : Sink × Nat :=
  if hostLE then capec_WriteRecord_bs4_i2 hostLE fid P
  else capec_WriteRecord_ne4_i2 hostLE fid P

/-- Embedding of capec_WriteRecord_lb4_i2 (part_001 lines 384-391). -/
def capec_WriteRecord_lb4_i2 (hostLE : Bool) (fid : Sink) (P : NpArr) : Sink × Nat :=
  if hostLE then capec_WriteRecord_ne4_i2 hostLE fid P
  else capec_WriteRecord_bs4_i2 hostLE fid P

/-- Embedding of capec_WriteRecord_ne4_f2 (part_001 lines 593-626):
native-order 2-D single-precision record; elements are doubles narrowed
to float by the assignment, modelled by d2f. -/
def capec_WriteRecord_ne4_f2 (d2f : Nat → Nat) (hostLE : Bool) (fid : Sink) (P : NpArr) :
    Sink × Nat :=
  if P.dims.length ≠ 2 then (fid, 2) else
    let m := P.dims.getD 0 0
    let n := P.dims.getD 1 0
    let nb := m * n * 4 % 2^32
    let fid1 := (fwrite fid (mem4 hostLE nb)).1
    let fid2 := writeList fid1
      (((List.range m).map fun i =>
        (List.range n).map fun j => mem4 hostLE (d2f (P.get i j 0 % 2^64) % 2^32)).flatten)
    let fid3 := (fwrite fid2 (mem4 hostLE nb)).1
    (fid3, 0)

/-- Embedding of capec_WriteRecord_bs4_f2 (part_001 lines 629-663). -/
def capec_WriteRecord_bs4_f2 (d2f : Nat → Nat) (hostLE : Bool) (fid : Sink) (P : NpArr) :
    Sink × Nat :=
  if P.dims.length ≠ 2 then (fid, 2) else
    let m := P.dims.getD 0 0
    let n := P.dims.getD 1 0
    let nb := bswap32 (m * n * 4 % 2^32)
    let fid1 := (fwrite fid (mem4 hostLE nb)).1
    let fid2 := writeList fid1
      (((List.range m).map fun i =>
        (List.range n).map fun j =>
          mem4 hostLE (bswap32 (d2f (P.get i j 0 % 2^64) % 2^32))).flatten)
    let fid3 := (fwrite fid2 (mem4 hostLE nb)).1
    (fid3, 0)

/-- Embedding of capec_WriteRecord_b4_f2 (part_001 lines 666-673). -/
def capec_WriteRecord_b4_f2 (d2f : Nat → Nat) (hostLE : Bool) (fid : Sink) (P : NpArr) :
    Sink × Nat :=
  if hostLE then capec_WriteRecord_bs4_f2 d2f hostLE fid P
  else capec_WriteRecord_ne4_f2 d2f hostLE fid P

/-- Embedding of capec_WriteRecord_lb4_f2 (part_001 lines 676-683). -/
def capec_WriteRecord_lb4_f2 (d2f : Nat → Nat) (hostLE : Bool) (fid : Sink) (P : NpArr) :
    Sink × Nat :=
  if hostLE then capec_WriteRecord_ne4_f2 d2f hostLE fid P
  else capec_WriteRecord_bs4_f2 d2f hostLE fid P

/-- Embedding of capec_WriteRecord_ne8_f2 (part_001 lines 886-919):
native-order 2-D double record. -/
def capec_WriteRecord_ne8_f2 (hostLE : Bool) (fid : Sink) (P : NpArr) : Sink × Nat :=
  if P.dims.length ≠ 2 then (fid, 2) else
    let m := P.dims.getD 0 0
    let n := P.dims.getD 1 0
    let nb := m * n * 8 % 2^32
    let fid1 := (fwrite fid (mem4 hostLE nb)).1
    let fid2 := writeList fid1
      (((List.range m).map fun i =>
        (List.range n).map fun j => mem8 hostLE (P.get i j 0 % 2^64)).flatten)
    let fid3 := (fwrite fid2 (mem4 hostLE nb)).1
    (fid3, 0)

/-- Embedding of capec_WriteRecord_bs8_f2 (part_001 lines 922-956). -/
def capec_WriteRecord_bs8_f2 (hostLE : Bool) (fid : Sink) (P : NpArr) : Sink × Nat :=
  if P.dims.length ≠ 2 then (fid, 2) else
    let m := P.dims.getD 0 0
    let n := P.dims.getD 1 0
    let nb := bswap32 (m * n * 8 % 2^32)
    let fid1 := (fwrite fid (mem4 hostLE nb)).1
    let fid2 := writeList fid1
      (((List.range m).map fun i =>
        (List.range n).map fun j => mem8 hostLE (bswap64 (P.get i j 0 % 2^64))).flatten)
    let fid3 := (fwrite fid2 (mem4 hostLE nb)).1
    (fid3, 0)

/-- Embedding of capec_WriteRecord_b8_f2 (part_001 lines 959-966). -/
def capec_WriteRecord_b8_f2 (hostLE : Bool) (fid : Sink) (P : NpArr) : Sink × Nat :=
  if hostLE then capec_WriteRecord_bs8_f2 hostLE fid P
  else capec_WriteRecord_ne8_f2 hostLE fid P

/-- Embedding of capec_WriteRecord_lb8_f2 (part_001 lines 969-976). -/
def capec_WriteRecord_lb8_f2 (hostLE : Bool) (fid : Sink) (P : NpArr) : Sink × Nat :=
  if hostLE then capec_WriteRecord_ne8_f2 hostLE fid P
  else capec_WriteRecord_bs8_f2 hostLE fid P

/-- Embedding of capec_WriteRecord_ne4_i3 (part_001 lines 399-436):
native-order 3-D int record, loops ordered j (outer), k, l (inner). -/
def capec_WriteRecord_ne4_i3 (hostLE : Bool) (fid : Sink) (P : NpArr) : Sink × Nat :=
  if P.dims.length ≠ 3 then (fid, 2) else
    let nj := P.dims.getD 0 0
    let nk := P.dims.getD 1 0
    let nl := P.dims.getD 2 0
    let nb := nj * nk * nl * 4 % 2^32
    let fid1 := (fwrite fid (mem4 hostLE nb)).1
    let fid2 := writeList fid1
      (((List.range nj).map fun j =>
        ((List.range nk).map fun k =>
          (List.range nl).map fun l => mem4 hostLE (P.get j k l % 2^32)).flatten).flatten)
    let fid3 := (fwrite fid2 (mem4 hostLE nb)).1
    (fid3, 0)

/-- Embedding of capec_WriteRecord_bs4_i3 (part_001 lines 439-476). -/
def capec_WriteRecord_bs4_i3 (hostLE : Bool) (fid : Sink) (P : NpArr) : Sink × Nat :=
  if P.dims.length ≠ 3 then (fid, 2) else
    let nj := P.dims.getD 0 0
    let nk := P.dims.getD 1 0
    let nl := P.dims.getD 2 0
    let nb := bswap32 (nj * nk * nl * 4 % 2^32)
    let fid1 := (fwrite fid (mem4 hostLE nb)).1
    let fid2 := writeList fid1
      (((List.range nj).map fun j =>
        ((List.range nk).map fun k =>
          (List.range nl).map fun l =>
            mem4 hostLE (bswap32 (P.get j k l % 2^32))).flatten).flatten)
    let fid3 := (fwrite fid2 (mem4 hostLE nb)).1
    (fid3, 0)

/-- Embedding of capec_WriteRecord_b4_i3 (part_001 lines 479-486). -/
def capec_WriteRecord_b4_i3 (hostLE : Bool) (fid : Sink) (P : NpArr) : Sink × Nat :=
  if hostLE then capec_WriteRecord_bs4_i3 hostLE fid P
  else capec_WriteRecord_ne4_i3 hostLE fid P

/-- Embedding of capec_WriteRecord_lb4_i3 (part_001 lines 489-496). -/
def capec_WriteRecord_lb4_i3 (hostLE : Bool) (fid : Sink) (P : NpArr) : Sink × Nat :=
  if hostLE then capec_WriteRecord_ne4_i3 hostLE fid P
  else capec_WriteRecord_bs4_i3 hostLE fid P

/-- Embedding of capec_WriteRecord_ne4_f3 (part_001 lines 691-728):
native-order 3-D single-precision record; each element is a double
narrowed to float (the assignment float v = np3d(P,j,k,l)), modelled by
the narrowing parameter d2f. -/
def capec_WriteRecord_ne4_f3 (d2f : Nat → Nat) (hostLE : Bool) (fid : Sink) (P : NpArr) :
    Sink × Nat :=
  if P.dims.length ≠ 3 then (fid, 2) else
    let nj := P.dims.getD 0 0
    let nk := P.dims.getD 1 0
    let nl := P.dims.getD 2 0
    let nb := nj * nk * nl * 4 % 2^32
    let fid1 := (fwrite fid (mem4 hostLE nb)).1
    let fid2 := writeList fid1
      (((List.range nj).map fun j =>
        ((List.range nk).map fun k =>
          (List.range nl).map fun l =>
            mem4 hostLE (d2f (P.get j k l % 2^64) % 2^32)).flatten).flatten)
    let fid3 := (fwrite fid2 (mem4 hostLE nb)).1
    (fid3, 0)

/-- Embedding of capec_WriteRecord_bs4_f3 (part_001 lines 731-768):
byte-swapped 3-D single-precision record; the element is narrowed by the
explicit cast (float) np3d(P,j,k,l) and then byte-swapped in place. -/
def capec_WriteRecord_bs4_f3 (d2f : Nat → Nat) (hostLE : Bool) (fid : Sink) (P : NpArr) :
    Sink × Nat :=
  if P.dims.length ≠ 3 then (fid, 2) else
    let nj := P.dims.getD 0 0
    let nk := P.dims.getD 1 0
    let nl := P.dims.getD 2 0
    let nb := bswap32 (nj * nk * nl * 4 % 2^32)
    let fid1 := (fwrite fid (mem4 hostLE nb)).1
    let fid2 := writeList fid1
      (((List.range nj).map fun j =>
        ((List.range nk).map fun k =>
          (List.range nl).map fun l =>
            mem4 hostLE (bswap32 (d2f (P.get j k l % 2^64) % 2^32))).flatten).flatten)
    let fid3 := (fwrite fid2 (mem4 hostLE nb)).1
    (fid3, 0)

/-- Embedding of capec_WriteRecord_b4_f3 (part_001 lines 771-778). -/
def capec_WriteRecord_b4_f3 (d2f : Nat → Nat) (hostLE : Bool) (fid : Sink) (P : NpArr) :
    Sink × Nat :=
  if hostLE then capec_WriteRecord_bs4_f3 d2f hostLE fid P
  else capec_WriteRecord_ne4_f3 d2f hostLE fid P

/-- Embedding of capec_WriteRecord_lb4_f3 (part_001 lines 781-788). -/
def capec_WriteRecord_lb4_f3 (d2f : Nat → Nat) (hostLE : Bool) (fid : Sink) (P : NpArr) :
    Sink × Nat :=
  if hostLE then capec_WriteRecord_ne4_f3 d2f hostLE fid P
  else capec_WriteRecord_bs4_f3 d2f hostLE fid P

/-- Embedding of capec_WriteRecord_ne8_f1 (part_001 lines 796-825):
native-order 1-D double record; the record marker is the int
n * sizeof(double), i.e. n * 8 with 32-bit wraparound. -/
def capec_WriteRecord_ne8_f1 (hostLE : Bool) (fid : Sink) (P : NpArr) : Sink × Nat :=
  if P.dims.length ≠ 1 then (fid, 2) else
    let n := P.dims.getD 0 0
    let nb := n * 8 % 2^32
    let fid1 := (fwrite fid (mem4 hostLE nb)).1
    let fid2 := writeList fid1 ((List.range n).map fun i => mem8 hostLE (P.get i 0 0 % 2^64))
    let fid3 := (fwrite fid2 (mem4 hostLE nb)).1
    (fid3, 0)

/-- Embedding of capec_WriteRecord_bs8_f1 (part_001 lines 828-858):
byte-swapped 1-D double record. -/
def capec_WriteRecord_bs8_f1 (hostLE : Bool) (fid : Sink) (P : NpArr) : Sink × Nat :=
  if P.dims.length ≠ 1 then (fid, 2) else
    let n := P.dims.getD 0 0
    let nb := bswap32 (n * 8 % 2^32)
    let fid1 := (fwrite fid (mem4 hostLE nb)).1
    let fid2 := writeList fid1
      ((List.range n).map fun i => mem8 hostLE (bswap64 (P.get i 0 0 % 2^64)))
    let fid3 := (fwrite fid2 (mem4 hostLE nb)).1
    (fid3, 0)

/-- Embedding of capec_WriteRecord_b8_f1 (part_001 lines 861-868). -/
def capec_WriteRecord_b8_f1 (hostLE : Bool) (fid : Sink) (P : NpArr) : Sink × Nat :=
  if hostLE then capec_WriteRecord_bs8_f1 hostLE fid P
  else capec_WriteRecord_ne8_f1 hostLE fid P

/-- Embedding of capec_WriteRecord_lb8_f1 (part_001 lines 871-878). -/
def capec_WriteRecord_lb8_f1 (hostLE : Bool) (fid : Sink) (P : NpArr) : Sink × Nat :=
  if hostLE then capec_WriteRecord_ne8_f1 hostLE fid P
  else capec_WriteRecord_bs8_f1 hostLE fid P

/-- Embedding of capec_WriteRecord_ne8_f3 (part_001 lines 984-1021):
native-order 3-D double record; marker is nj * nk * nl * sizeof(double)
with 32-bit wraparound. -/
def capec_WriteRecord_ne8_f3 (hostLE : Bool) (fid : Sink) (P : NpArr) : Sink × Nat :=
  if P.dims.length ≠ 3 then (fid, 2) else
    let nj := P.dims.getD 0 0
    let nk := P.dims.getD 1 0
    let nl := P.dims.getD 2 0
    let nb := nj * nk * nl * 8 % 2^32
    let fid1 := (fwrite fid (mem4 hostLE nb)).1
    let fid2 := writeList fid1
      (((List.range nj).map fun j =>
        ((List.range nk).map fun k =>
          (List.range nl).map fun l => mem8 hostLE (P.get j k l % 2^64)).flatten).flatten)
    let fid3 := (fwrite fid2 (mem4 hostLE nb)).1
    (fid3, 0)

/-- Embedding of capec_WriteRecord_bs8_f3 (part_001 lines 1024-1061). -/
def capec_WriteRecord_bs8_f3 (hostLE : Bool) (fid : Sink) (P : NpArr) : Sink × Nat :=
  if P.dims.length ≠ 3 then (fid, 2) else
    let nj := P.dims.getD 0 0
    let nk := P.dims.getD 1 0
    let nl := P.dims.getD 2 0
    let nb := bswap32 (nj * nk * nl * 8 % 2^32)
    let fid1 := (fwrite fid (mem4 hostLE nb)).1
    let fid2 := writeList fid1
      (((List.range nj).map fun j =>
        ((List.range nk).map fun k =>
          (List.range nl).map fun l =>
            mem8 hostLE (bswap64 (P.get j k l % 2^64))).flatten).flatten)
    let fid3 := (fwrite fid2 (mem4 hostLE nb)).1
    (fid3, 0)

/-- Embedding of capec_WriteRecord_b8_f3 (part_001 lines 1064-1071): note
the source dispatches to the 4-byte routines bs4_f3 / ne4_f3, not to the
8-byte ones. -/
def capec_WriteRecord_b8_f3 (d2f : Nat → Nat) (hostLE : Bool) (fid : Sink) (P : NpArr) :
    Sink × Nat :=
  if hostLE then capec_WriteRecord_bs4_f3 d2f hostLE fid P
  else capec_WriteRecord_ne4_f3 d2f hostLE fid P

/-- Embedding of capec_WriteRecord_lb8_f3 (part_001 lines 1074-1081): it
likewise dispatches to the 4-byte routines ne4_f3 / bs4_f3. -/
def capec_WriteRecord_lb8_f3 (d2f : Nat → Nat) (hostLE : Bool) (fid : Sink) (P : NpArr) :
    Sink × Nat :=
  if hostLE then capec_WriteRecord_ne4_f3 d2f hostLE fid P
  else capec_WriteRecord_bs4_f3 d2f hostLE fid P

/-!  Basic facts about the byte-level helpers and the sink model. -/

/-- Total byte length of a list of chunks. -/
def bytesLen (chunks : List (List Nat)) : Nat := (chunks.map List.length).sum

lemma length_mem4 (h : Bool) (v : Nat) : (mem4 h v).length = 4 := by
  cases h <;> simp [mem4, le4]

lemma length_mem8 (h : Bool) (v : Nat) : (mem8 h v).length = 8 := by
  cases h <;> simp [mem8, le8]

lemma le4_pack (a b c d : Nat) (ha : a < 2^8) (hb : b < 2^8) (hc : c < 2^8) (hd : d < 2^8) :
    le4 (a + 2^8 * b + 2^16 * c + 2^24 * d) = [a, b, c, d] := by
  simp only [le4, List.cons.injEq, and_true]
  refine ⟨?_, ?_, ?_, ?_⟩ <;> omega

lemma le4_bswap32 (v : Nat) : le4 (bswap32 v) = (le4 v).reverse := by
  have h1 : v % 2^8 < 2^8 := Nat.mod_lt _ (by norm_num)
  have h2 : v / 2^8 % 2^8 < 2^8 := Nat.mod_lt _ (by norm_num)
  have h3 : v / 2^16 % 2^8 < 2^8 := Nat.mod_lt _ (by norm_num)
  have h4 : v / 2^24 % 2^8 < 2^8 := Nat.mod_lt _ (by norm_num)
  have e : bswap32 v =
      v / 2^24 % 2^8 + 2^8 * (v / 2^16 % 2^8) + 2^16 * (v / 2^8 % 2^8) + 2^24 * (v % 2^8) := by
    simp [bswap32, le4, ofBytesLE]; ring
  rw [e, le4_pack _ _ _ _ h4 h3 h2 h1]
  simp [le4]

lemma ofBytesLE_le4 (v : Nat) : ofBytesLE (le4 v) = v % 2^32 := by
  simp [ofBytesLE, le4]; omega

lemma bswap32_bswap32 (v : Nat) : bswap32 (bswap32 v) = v % 2^32 := by
  have e : bswap32 (bswap32 v) = ofBytesLE ((le4 (bswap32 v)).reverse) := rfl
  rw [e, le4_bswap32, List.reverse_reverse, ofBytesLE_le4]

lemma mem4_bswap32 (h : Bool) (v : Nat) : mem4 h (bswap32 v) = mem4 (!h) v := by
  cases h <;> simp [mem4, le4_bswap32]

lemma mem4_zero (h : Bool) : mem4 h 0 = [0, 0, 0, 0] := by
  cases h <;> rfl

lemma fwrite_full (fid : Sink) (bytes : List Nat) (h : bytes.length ≤ fid.cap) :
    fwrite fid bytes =
      (⟨fid.cap - bytes.length, fid.out ++ bytes, fid.atts ++ [bytes]⟩, 1) := by
  simp [fwrite, Nat.min_eq_right h, h]

lemma fwrite_atts (fid : Sink) (bytes : List Nat) :
    (fwrite fid bytes).1.atts = fid.atts ++ [bytes] := rfl

lemma writeList_atts (chunks : List (List Nat)) :
    ∀ fid : Sink, (writeList fid chunks).atts = fid.atts ++ chunks := by
  induction chunks with
  | nil => intro fid; simp [writeList]
  | cons c rest ih =>
      intro fid
      rw [writeList, ih, fwrite_atts]
      simp

lemma writeList_dead (chunks : List (List Nat)) :
    ∀ fid : Sink, fid.cap = 0 →
      (writeList fid chunks).out = fid.out ∧ (writeList fid chunks).cap = 0 := by
  induction chunks with
  | nil => intro fid h; exact ⟨rfl, h⟩
  | cons c rest ih =>
      intro fid h
      have e1 : (fwrite fid c).1.out = fid.out := by simp [fwrite, h]
      have e2 : (fwrite fid c).1.cap = 0 := by simp [fwrite, h]
      rw [writeList]
      rcases ih (fwrite fid c).1 e2 with ⟨ho, hc⟩
      exact ⟨ho.trans e1, hc⟩

lemma bytesLen_cons (c : List Nat) (rest : List (List Nat)) :
    bytesLen (c :: rest) = c.length + bytesLen rest := by
  simp [bytesLen]

lemma writeList_full (chunks : List (List Nat)) :
    ∀ fid : Sink, bytesLen chunks ≤ fid.cap →
      writeList fid chunks =
        ⟨fid.cap - bytesLen chunks, fid.out ++ chunks.flatten, fid.atts ++ chunks⟩ := by
  induction chunks with
  | nil => intro fid _; simp [writeList, bytesLen]
  | cons c rest ih =>
      intro fid h
      rw [bytesLen_cons] at h
      have h1 : c.length ≤ fid.cap := by omega
      rw [writeList, fwrite_full fid c h1]
      rw [ih _ (by simp; omega)]
      simp only [Sink.mk.injEq]
      refine ⟨by rw [bytesLen_cons]; omega, by simp, by simp⟩

lemma getLast_append_one {α} (l : List α) (a : α) : (l ++ [a]).getLast? = some a := by
  induction l with
  | nil => rfl
  | cons x xs ih => rw [List.cons_append, List.getLast?_cons, ih]; simp

/-- One framed record write: leading marker, payload chunks, trailing
marker, on a sink with enough capacity for everything. -/
lemma framed_write (fid : Sink) (mk : List Nat) (chunks : List (List Nat))
    (hmk : mk.length = 4) (hcap : 8 + bytesLen chunks ≤ fid.cap) :
    (fwrite (writeList (fwrite fid mk).1 chunks) mk).1 =
      ⟨fid.cap - (8 + bytesLen chunks), fid.out ++ mk ++ chunks.flatten ++ mk,
       fid.atts ++ ([mk] ++ chunks ++ [mk])⟩ := by
  have h1 : mk.length ≤ fid.cap := by omega
  rw [fwrite_full fid mk h1]
  rw [writeList_full chunks _ (by simp [hmk]; omega)]
  rw [fwrite_full _ mk (by simp [hmk]; omega)]
  simp only [Sink.mk.injEq]
  refine ⟨by omega, by simp, by simp⟩

lemma bytesLen_map_const {α} (w : Nat) (l : List α) (f : α → List Nat)
    (hf : ∀ a, (f a).length = w) : bytesLen (l.map f) = w * l.length := by
  induction l with
  | nil => simp [bytesLen]
  | cons x xs ih =>
      rw [List.map_cons, bytesLen_cons, ih, hf]
      simp [List.length_cons]
      ring

lemma length_flatten_eq (chunks : List (List Nat)) :
    chunks.flatten.length = bytesLen chunks := by
  simp [bytesLen, List.length_flatten]

lemma length_le4 (v : Nat) : (le4 v).length = 4 := rfl

lemma write_b4_i_spec (hostLE : Bool) (v : Nat) (fid : Sink) (hcap : 4 ≤ fid.cap) :
    capec_Write_b4_i hostLE fid v =
      (⟨fid.cap - 4, fid.out ++ (le4 (v % 2^32)).reverse,
        fid.atts ++ [(le4 (v % 2^32)).reverse]⟩, 0) := by
  cases hostLE
  · have h4 : (mem4 false (v % 2^32)).length ≤ fid.cap := by rw [length_mem4]; exact hcap
    simp only [capec_Write_b4_i, Bool.false_eq_true, if_false]
    rw [fwrite_full _ _ h4]
    simp [mem4, length_mem4, length_le4]
  · have h4 : (mem4 true (bswap32 (v % 2^32))).length ≤ fid.cap := by
      rw [length_mem4]; exact hcap
    simp only [capec_Write_b4_i, if_true]
    rw [fwrite_full _ _ h4]
    simp [mem4, le4_bswap32, length_mem4, length_le4]

lemma write_lb4_i_spec (hostLE : Bool) (v : Nat) (fid : Sink) (hcap : 4 ≤ fid.cap) :
    capec_Write_lb4_i hostLE fid v =
      (⟨fid.cap - 4, fid.out ++ le4 (v % 2^32), fid.atts ++ [le4 (v % 2^32)]⟩, 0) := by
  cases hostLE
  · have h4 : (mem4 false (bswap32 (v % 2^32))).length ≤ fid.cap := by
      rw [length_mem4]; exact hcap
    simp only [capec_Write_lb4_i, Bool.false_eq_true, if_false]
    rw [fwrite_full _ _ h4]
    simp [mem4, le4_bswap32, length_mem4, length_le4]
  · have h4 : (mem4 true (v % 2^32)).length ≤ fid.cap := by rw [length_mem4]; exact hcap
    simp only [capec_Write_lb4_i, if_true]
    rw [fwrite_full _ _ h4]
    simp [mem4, length_mem4, length_le4]

/-- C1 (code-bug evidence): with a sink that accepts only the 4 leading
marker bytes, capec_WriteRecord_ne4_i1 on a one-element array ignores
the failed payload write, still attempts the trailing record marker
(third entry of the attempt trace), and returns the success status 0
instead of an I/O-failure status. -/
theorem C1_ne4_i1_ignores_short_write :
    capec_WriteRecord_ne4_i1 true ⟨4, [], []⟩ ⟨[1], fun _ _ _ => 7⟩ =
      (⟨0, [4, 0, 0, 0], [[4, 0, 0, 0], [7, 0, 0, 0], [4, 0, 0, 0]]⟩, 0) := by
  rfl

/-- C2: the 8-byte big-endian 3-D float entry point dispatches to the
4-byte routines, so it agrees with the 4-byte entry point on status and
on every byte of output for every narrowing, host order, sink and array
view; likewise for the little-endian pair. -/
theorem C2_b8_f3_equals_b4_f3 (d2f : Nat → Nat) (hostLE : Bool) (fid : Sink) (P : NpArr) :
    capec_WriteRecord_b8_f3 d2f hostLE fid P = capec_WriteRecord_b4_f3 d2f hostLE fid P ∧
    capec_WriteRecord_lb8_f3 d2f hostLE fid P = capec_WriteRecord_lb4_f3 d2f hostLE fid P :=
  ⟨rfl, rfl⟩

/-- C3 (code-bug evidence): the scalar double writers fwrite with item
size sizeof(int), so on a little-endian host, for the binary64 pattern
of 1.0 (0x3FF0000000000000), capec_Write_b4_d emits only the first 4 of
the 8 bytes of the swapped image and capec_Write_lb4_d emits only the 4
low-order (zero) bytes, both reporting success. -/
theorem C3_double_writers_emit_four_bytes :
    capec_Write_b4_d true ⟨100, [], []⟩ 4607182418800017408 =
      (⟨96, [63, 240, 0, 0], [[63, 240, 0, 0]]⟩, 0) ∧
    capec_Write_lb4_d true ⟨100, [], []⟩ 4607182418800017408 =
      (⟨96, [0, 0, 0, 0], [[0, 0, 0, 0]]⟩, 0) := by
  exact ⟨rfl, rfl⟩

/-- C6: for every host order the big-endian scalar integer writer emits
exactly the big-endian byte image of the value (i.e. it byte-swaps the
native image precisely when the host is little-endian) and the
little-endian writer emits exactly the little-endian image (swapping
precisely when the host is big-endian); both report status 0 on a sink
with capacity, and bswap32 is involutive on 32-bit values, so an even
number of swaps restores the original value. -/
theorem C6_scalar_swaps_iff_host_differs (hostLE : Bool) (v : Nat) (fid : Sink)
    (hcap : 4 ≤ fid.cap) :
    (capec_Write_b4_i hostLE fid v).1.out = fid.out ++ (le4 (v % 2^32)).reverse ∧
    (capec_Write_b4_i hostLE fid v).2 = 0 ∧
    (capec_Write_lb4_i hostLE fid v).1.out = fid.out ++ le4 (v % 2^32) ∧
    (capec_Write_lb4_i hostLE fid v).2 = 0 ∧
    bswap32 (bswap32 (v % 2^32)) = v % 2^32 := by
  rw [write_b4_i_spec hostLE v fid hcap, write_lb4_i_spec hostLE v fid hcap,
    bswap32_bswap32]
  refine ⟨rfl, rfl, rfl, rfl, by simp⟩

/-- C6 witness: concrete instance at v = 258, host little-endian, an
empty sink of capacity 8. -/
theorem C6_witness :
    4 ≤ (⟨8, [], []⟩ : Sink).cap ∧
    (capec_Write_b4_i true ⟨8, [], []⟩ 258).1.out = [] ++ (le4 (258 % 2^32)).reverse ∧
    (capec_Write_b4_i true ⟨8, [], []⟩ 258).2 = 0 ∧
    (capec_Write_lb4_i true ⟨8, [], []⟩ 258).1.out = [] ++ le4 (258 % 2^32) ∧
    (capec_Write_lb4_i true ⟨8, [], []⟩ 258).2 = 0 ∧
    bswap32 (bswap32 (258 % 2^32)) = 258 % 2^32 :=
  ⟨by decide, C6_scalar_swaps_iff_host_differs true 258 ⟨8, [], []⟩ (by decide)⟩

/-- C7: a record writer called with an array view of the wrong rank
returns the validation status 2 and hands back the sink completely
untouched: no bytes written, no write even attempted. -/
theorem C7_wrong_rank_writes_nothing (hostLE : Bool) (fid : Sink) (P : NpArr) :
    (P.dims.length ≠ 1 → capec_WriteRecord_ne4_i1 hostLE fid P = (fid, 2)) ∧
    (P.dims.length ≠ 2 → capec_WriteRecord_ne4_i2 hostLE fid P = (fid, 2)) ∧
    (P.dims.length ≠ 3 → capec_WriteRecord_ne4_i3 hostLE fid P = (fid, 2)) ∧
    (P.dims.length ≠ 1 → capec_WriteRecord_bs8_f1 hostLE fid P = (fid, 2)) ∧
    (P.dims.length ≠ 3 → capec_WriteRecord_ne8_f3 hostLE fid P = (fid, 2)) := by
  refine ⟨?_, ?_, ?_, ?_, ?_⟩ <;> intro h <;>
    simp [capec_WriteRecord_ne4_i1, capec_WriteRecord_ne4_i2, capec_WriteRecord_ne4_i3,
      capec_WriteRecord_bs8_f1, capec_WriteRecord_ne8_f3, h]

/-- C7 witness: the rank-2 integer entry point applied to a rank-3 array
view returns status 2 and an untouched sink. -/
theorem C7_witness :
    capec_WriteRecord_ne4_i2 true ⟨100, [], []⟩ ⟨[1, 1, 1], fun _ _ _ => 0⟩ =
      (⟨100, [], []⟩, 2) :=
  (C7_wrong_rank_writes_nothing true ⟨100, [], []⟩ ⟨[1, 1, 1], fun _ _ _ => 0⟩).2.1
    (by decide)

/-- C4: on a sink with enough capacity, for an array view respecting the
32-bit size invariant, the native and byte-swapped 1-D integer record
writers succeed with total output growth of exactly 8 + payload bytes,
and both the opening and closing markers are the same byte string,
encoding the true payload byte count n * 4 in the target byte order
(native order for the ne4 writer, opposite order for the bs4 writer). -/
theorem C4_marker_symmetry (hostLE : Bool) (g : Nat → Nat → Nat → Nat) (fid : Sink)
    (n : Nat) (hn : n * 4 < 2^31) (hcap : 8 + 4 * n ≤ fid.cap) :
    (capec_WriteRecord_ne4_i1 hostLE fid ⟨[n], g⟩).2 = 0 ∧
    (capec_WriteRecord_ne4_i1 hostLE fid ⟨[n], g⟩).1.out =
      fid.out ++ mem4 hostLE (n * 4) ++
        ((List.range n).map fun i => mem4 hostLE (g i 0 0 % 2^32)).flatten ++
        mem4 hostLE (n * 4) ∧
    (capec_WriteRecord_ne4_i1 hostLE fid ⟨[n], g⟩).1.out.length =
      fid.out.length + (8 + 4 * n) ∧
    (capec_WriteRecord_bs4_i1 hostLE fid ⟨[n], g⟩).2 = 0 ∧
    (capec_WriteRecord_bs4_i1 hostLE fid ⟨[n], g⟩).1.out =
      fid.out ++ mem4 (!hostLE) (n * 4) ++
        ((List.range n).map fun i => mem4 hostLE (bswap32 (g i 0 0 % 2^32))).flatten ++
        mem4 (!hostLE) (n * 4) ∧
    (capec_WriteRecord_bs4_i1 hostLE fid ⟨[n], g⟩).1.out.length =
      fid.out.length + (8 + 4 * n) := by
  have hmod : n * 4 % 2^32 = n * 4 := Nat.mod_eq_of_lt (by omega)
  have hbl1 : bytesLen ((List.range n).map fun i => mem4 hostLE (g i 0 0 % 2^32)) = 4 * n := by
    rw [bytesLen_map_const 4 _ _ (fun i => length_mem4 hostLE _)]
    simp
  have hbl2 : bytesLen ((List.range n).map fun i =>
      mem4 hostLE (bswap32 (g i 0 0 % 2^32))) = 4 * n := by
    rw [bytesLen_map_const 4 _ _ (fun i => length_mem4 hostLE _)]
    simp
  have e1 : capec_WriteRecord_ne4_i1 hostLE fid ⟨[n], g⟩ =
      ((fwrite (writeList (fwrite fid (mem4 hostLE (n * 4 % 2^32))).1
          ((List.range n).map fun i => mem4 hostLE (g i 0 0 % 2^32)))
        (mem4 hostLE (n * 4 % 2^32))).1, 0) := rfl
  have e2 : capec_WriteRecord_bs4_i1 hostLE fid ⟨[n], g⟩ =
      ((fwrite (writeList (fwrite fid (mem4 hostLE (bswap32 (n * 4 % 2^32)))).1
          ((List.range n).map fun i => mem4 hostLE (bswap32 (g i 0 0 % 2^32))))
        (mem4 hostLE (bswap32 (n * 4 % 2^32)))).1, 0) := rfl
  rw [hmod] at e1 e2
  rw [mem4_bswap32] at e2
  have f1 := framed_write fid (mem4 hostLE (n * 4))
    ((List.range n).map fun i => mem4 hostLE (g i 0 0 % 2^32))
    (length_mem4 _ _) (by rw [hbl1]; omega)
  have f2 := framed_write fid (mem4 (!hostLE) (n * 4))
    ((List.range n).map fun i => mem4 hostLE (bswap32 (g i 0 0 % 2^32)))
    (length_mem4 _ _) (by rw [hbl2]; omega)
  refine ⟨by rw [e1], ?_, ?_, by rw [e2], ?_, ?_⟩
  · rw [e1]
    show (fwrite _ _).1.out = _
    rw [f1]
  · rw [e1]
    show (fwrite _ _).1.out.length = _
    rw [f1]
    simp only [List.length_append, length_mem4, length_flatten_eq, hbl1]
    omega
  · rw [e2]
    show (fwrite _ _).1.out = _
    rw [f2]
  · rw [e2]
    show (fwrite _ _).1.out.length = _
    rw [f2]
    simp only [List.length_append, length_mem4, length_flatten_eq, hbl2]
    omega

/-- C4 witness: concrete one-element array on a little-endian host. -/
theorem C4_witness :
    (capec_WriteRecord_ne4_i1 true ⟨100, [], []⟩ ⟨[1], fun _ _ _ => 7⟩).2 = 0 ∧
    (capec_WriteRecord_ne4_i1 true ⟨100, [], []⟩ ⟨[1], fun _ _ _ => 7⟩).1.out =
      [4, 0, 0, 0, 7, 0, 0, 0, 4, 0, 0, 0] := by
  have h := C4_marker_symmetry true (fun _ _ _ => 7) ⟨100, [], []⟩ 1 (by norm_num)
    (by norm_num)
  exact ⟨h.1, by rw [h.2.1]; rfl⟩

/-- C5: the record writers traverse in row-major order: for a 2 x 3
rank-2 view the payload visits cells (0,0),(0,1),(0,2),(1,0),(1,1),(1,2)
in that order, and for a 2 x 2 x 2 rank-3 view the outer index varies
slowest and the inner index fastest, whatever the cell contents g. -/
theorem C5_row_major_traversal (hostLE : Bool) (g : Nat → Nat → Nat → Nat) (fid : Sink)
    (hcap : 40 ≤ fid.cap) :
    (capec_WriteRecord_ne4_i2 hostLE fid ⟨[2, 3], g⟩).1.out =
      fid.out ++ mem4 hostLE 24 ++
        (mem4 hostLE (g 0 0 0 % 2^32) ++ mem4 hostLE (g 0 1 0 % 2^32) ++
         mem4 hostLE (g 0 2 0 % 2^32) ++ mem4 hostLE (g 1 0 0 % 2^32) ++
         mem4 hostLE (g 1 1 0 % 2^32) ++ mem4 hostLE (g 1 2 0 % 2^32)) ++
        mem4 hostLE 24 ∧
    (capec_WriteRecord_ne4_i3 hostLE fid ⟨[2, 2, 2], g⟩).1.out =
      fid.out ++ mem4 hostLE 32 ++
        (mem4 hostLE (g 0 0 0 % 2^32) ++ mem4 hostLE (g 0 0 1 % 2^32) ++
         mem4 hostLE (g 0 1 0 % 2^32) ++ mem4 hostLE (g 0 1 1 % 2^32) ++
         mem4 hostLE (g 1 0 0 % 2^32) ++ mem4 hostLE (g 1 0 1 % 2^32) ++
         mem4 hostLE (g 1 1 0 % 2^32) ++ mem4 hostLE (g 1 1 1 % 2^32)) ++
        mem4 hostLE 32 := by
  constructor
  · have e1 : capec_WriteRecord_ne4_i2 hostLE fid ⟨[2, 3], g⟩ =
        ((fwrite (writeList (fwrite fid (mem4 hostLE 24)).1
            [mem4 hostLE (g 0 0 0 % 2^32), mem4 hostLE (g 0 1 0 % 2^32),
             mem4 hostLE (g 0 2 0 % 2^32), mem4 hostLE (g 1 0 0 % 2^32),
             mem4 hostLE (g 1 1 0 % 2^32), mem4 hostLE (g 1 2 0 % 2^32)])
          (mem4 hostLE 24)).1, 0) := rfl
    rw [e1]
    show (fwrite _ _).1.out = _
    rw [framed_write fid _ _ (length_mem4 _ _)
      (by simp [bytesLen, length_mem4]; omega)]
    simp [List.append_assoc]
  · have e2 : capec_WriteRecord_ne4_i3 hostLE fid ⟨[2, 2, 2], g⟩ =
        ((fwrite (writeList (fwrite fid (mem4 hostLE 32)).1
            [mem4 hostLE (g 0 0 0 % 2^32), mem4 hostLE (g 0 0 1 % 2^32),
             mem4 hostLE (g 0 1 0 % 2^32), mem4 hostLE (g 0 1 1 % 2^32),
             mem4 hostLE (g 1 0 0 % 2^32), mem4 hostLE (g 1 0 1 % 2^32),
             mem4 hostLE (g 1 1 0 % 2^32), mem4 hostLE (g 1 1 1 % 2^32)])
          (mem4 hostLE 32)).1, 0) := rfl
    rw [e2]
    show (fwrite _ _).1.out = _
    rw [framed_write fid _ _ (length_mem4 _ _)
      (by simp [bytesLen, length_mem4]; omega)]
    simp [List.append_assoc]

/-- C5 witness: a concrete 2 x 3 array with distinct cell values. -/
theorem C5_witness :
    (capec_WriteRecord_ne4_i2 true ⟨100, [], []⟩ ⟨[2, 3], fun i j _ => 10 * i + j⟩).1.out =
      [24, 0, 0, 0, 0, 0, 0, 0, 1, 0, 0, 0, 2, 0, 0, 0,
       10, 0, 0, 0, 11, 0, 0, 0, 12, 0, 0, 0, 24, 0, 0, 0] := by
  have h := C5_row_major_traversal true (fun i j _ => 10 * i + j) ⟨100, [], []⟩
    (by norm_num)
  exact by rw [h.1]; rfl

/-- C9: zero-extent arrays are legal: the 1-D writer on extent 0 and the
2-D writer on any extents with m * n = 0 succeed with status 0 and write
exactly the two zero markers and no payload bytes between them. -/
theorem C9_zero_extent_record (hostLE : Bool) (g : Nat → Nat → Nat → Nat) (fid : Sink)
    (m n : Nat) (hcap : 8 ≤ fid.cap) :
    ((capec_WriteRecord_ne4_i1 hostLE fid ⟨[0], g⟩).2 = 0 ∧
     (capec_WriteRecord_ne4_i1 hostLE fid ⟨[0], g⟩).1.out =
       fid.out ++ ([0, 0, 0, 0] ++ [0, 0, 0, 0])) ∧
    (m * n = 0 →
     (capec_WriteRecord_ne4_i2 hostLE fid ⟨[m, n], g⟩).2 = 0 ∧
     (capec_WriteRecord_ne4_i2 hostLE fid ⟨[m, n], g⟩).1.out =
       fid.out ++ ([0, 0, 0, 0] ++ [0, 0, 0, 0])) := by
  constructor
  · have e1 : capec_WriteRecord_ne4_i1 hostLE fid ⟨[0], g⟩ =
        ((fwrite (writeList (fwrite fid (mem4 hostLE 0)).1 []) (mem4 hostLE 0)).1, 0) := rfl
    refine ⟨by rw [e1], ?_⟩
    rw [e1]
    show (fwrite _ _).1.out = _
    rw [framed_write fid _ [] (length_mem4 _ _) (by simp [bytesLen]; omega)]
    simp [mem4_zero]
  · intro hmn
    have e2 : capec_WriteRecord_ne4_i2 hostLE fid ⟨[m, n], g⟩ =
        ((fwrite (writeList (fwrite fid (mem4 hostLE (m * n * 4 % 2^32))).1
            (((List.range m).map fun i =>
              (List.range n).map fun j => mem4 hostLE (g i j 0 % 2^32)).flatten))
          (mem4 hostLE (m * n * 4 % 2^32))).1, 0) := rfl
    have hz : m * n * 4 % 2^32 = 0 := by rw [hmn]; simp
    have hc : (((List.range m).map fun i =>
        (List.range n).map fun j => mem4 hostLE (g i j 0 % 2^32)).flatten) =
        ([] : List (List Nat)) := by
      rcases Nat.mul_eq_zero.mp hmn with hm | hn
      · subst hm; simp
      · subst hn; simp
    rw [hz, hc] at e2
    refine ⟨by rw [e2], ?_⟩
    rw [e2]
    show (fwrite _ _).1.out = _
    rw [framed_write fid _ [] (length_mem4 _ _) (by simp [bytesLen]; omega)]
    simp [mem4_zero]

/-- C9 witness: a 1-D extent-0 view and a 2-D view with extents (0, 5). -/
theorem C9_witness :
    ((capec_WriteRecord_ne4_i1 true ⟨8, [], []⟩ ⟨[0], fun _ _ _ => 9⟩).2 = 0 ∧
     (capec_WriteRecord_ne4_i1 true ⟨8, [], []⟩ ⟨[0], fun _ _ _ => 9⟩).1.out =
       [0, 0, 0, 0, 0, 0, 0, 0]) ∧
    ((capec_WriteRecord_ne4_i2 true ⟨8, [], []⟩ ⟨[0, 5], fun _ _ _ => 9⟩).2 = 0 ∧
     (capec_WriteRecord_ne4_i2 true ⟨8, [], []⟩ ⟨[0, 5], fun _ _ _ => 9⟩).1.out =
       [0, 0, 0, 0, 0, 0, 0, 0]) := by
  have h := C9_zero_extent_record true (fun _ _ _ => 9) ⟨8, [], []⟩ 0 5 (by norm_num)
  have h2 := h.2 (by norm_num)
  exact ⟨⟨h.1.1, by rw [h.1.2]; rfl⟩, ⟨h2.1, by rw [h2.2]; rfl⟩⟩

lemma fwrite_dead_out (X : Sink) (b : List Nat) (hc : X.cap = 0) :
    (fwrite X b).1.out = X.out := by
  simp [fwrite, hc]

/-- C8 (code-bug evidence): for a 1-D double array whose true payload
byte count n * 8 lies at or above 2^31 (outside the signed 32-bit marker
range), capec_WriteRecord_ne8_f1 performs no size validation: on a sink
that accepts exactly the 4 marker bytes it writes the marker bytes of
n * 8 (a wrapped, negative int32 pattern) before anything else and
returns success status 0 instead of raising a validation error before
any byte is written. -/
theorem C8_ne8_f1_overflow_wraps_marker (hostLE : Bool) (g : Nat → Nat → Nat → Nat)
    (fid : Sink) (n : Nat) (_hover : 2^31 ≤ n * 8) (h2 : n * 8 < 2^32) (hcap : fid.cap = 4) :
    (capec_WriteRecord_ne8_f1 hostLE fid ⟨[n], g⟩).2 = 0 ∧
    (capec_WriteRecord_ne8_f1 hostLE fid ⟨[n], g⟩).1.out =
      fid.out ++ mem4 hostLE (n * 8) := by
  have hmod : n * 8 % 2^32 = n * 8 := Nat.mod_eq_of_lt h2
  have e1 : capec_WriteRecord_ne8_f1 hostLE fid ⟨[n], g⟩ =
      ((fwrite (writeList (fwrite fid (mem4 hostLE (n * 8 % 2^32))).1
          ((List.range n).map fun i => mem8 hostLE (g i 0 0 % 2^64)))
        (mem4 hostLE (n * 8 % 2^32))).1, 0) := rfl
  rw [hmod] at e1
  have hf1 : (fwrite fid (mem4 hostLE (n * 8))).1 =
      ⟨0, fid.out ++ mem4 hostLE (n * 8), fid.atts ++ [mem4 hostLE (n * 8)]⟩ := by
    rw [fwrite_full fid _ (by rw [length_mem4]; omega)]
    simp [hcap, length_mem4]
  rw [hf1] at e1
  obtain ⟨ho, hc⟩ := writeList_dead
    ((List.range n).map fun i => mem8 hostLE (g i 0 0 % 2^64))
    ⟨0, fid.out ++ mem4 hostLE (n * 8), fid.atts ++ [mem4 hostLE (n * 8)]⟩ rfl
  refine ⟨by rw [e1], ?_⟩
  rw [e1]
  exact (fwrite_dead_out _ _ hc).trans ho

/-- C8 witness: the concrete overflowing extent 2^28 (2 gigabytes of
payload, true byte count 2^31). -/
theorem C8_witness :
    2^31 ≤ 2^28 * 8 ∧ 2^28 * 8 < 2^32 ∧
    (capec_WriteRecord_ne8_f1 true ⟨4, [], []⟩ ⟨[2^28], fun _ _ _ => 0⟩).2 = 0 ∧
    (capec_WriteRecord_ne8_f1 true ⟨4, [], []⟩ ⟨[2^28], fun _ _ _ => 0⟩).1.out =
      [] ++ mem4 true (2^28 * 8) :=
  ⟨by norm_num, by norm_num,
   C8_ne8_f1_overflow_wraps_marker true (fun _ _ _ => 0) ⟨4, [], []⟩ (2^28)
     (by norm_num) (by norm_num) rfl⟩

/-- Success or wrong-rank: the only two statuses a record writer can
return. -/
def statusOK (r : Sink × Nat) : Prop := r.2 = 0 ∨ r.2 = 2

lemma st_ne4_i1 (hostLE : Bool) (fid : Sink) (P : NpArr) :
    statusOK (capec_WriteRecord_ne4_i1 hostLE fid P) := by
  unfold statusOK capec_WriteRecord_ne4_i1
  split
  · exact Or.inr rfl
  · exact Or.inl rfl

lemma st_bs4_i1 (hostLE : Bool) (fid : Sink) (P : NpArr) :
    statusOK (capec_WriteRecord_bs4_i1 hostLE fid P) := by
  unfold statusOK capec_WriteRecord_bs4_i1
  split
  · exact Or.inr rfl
  · exact Or.inl rfl

lemma st_ne4_i2 (hostLE : Bool) (fid : Sink) (P : NpArr) :
    statusOK (capec_WriteRecord_ne4_i2 hostLE fid P) := by
  unfold statusOK capec_WriteRecord_ne4_i2
  split
  · exact Or.inr rfl
  · exact Or.inl rfl

lemma st_bs4_i2 (hostLE : Bool) (fid : Sink) (P : NpArr) :
    statusOK (capec_WriteRecord_bs4_i2 hostLE fid P) := by
  unfold statusOK capec_WriteRecord_bs4_i2
  split
  · exact Or.inr rfl
  · exact Or.inl rfl

lemma st_ne4_i3 (hostLE : Bool) (fid : Sink) (P : NpArr) :
    statusOK (capec_WriteRecord_ne4_i3 hostLE fid P) := by
  unfold statusOK capec_WriteRecord_ne4_i3
  split
  · exact Or.inr rfl
  · exact Or.inl rfl

lemma st_bs4_i3 (hostLE : Bool) (fid : Sink) (P : NpArr) :
    statusOK (capec_WriteRecord_bs4_i3 hostLE fid P) := by
  unfold statusOK capec_WriteRecord_bs4_i3
  split
  · exact Or.inr rfl
  · exact Or.inl rfl

lemma st_ne4_f1 (d2f : Nat → Nat) (hostLE : Bool) (fid : Sink) (P : NpArr) :
    statusOK (capec_WriteRecord_ne4_f1 d2f hostLE fid P) := by
  unfold statusOK capec_WriteRecord_ne4_f1
  split
  · exact Or.inr rfl
  · exact Or.inl rfl

lemma st_bs4_f1 (d2f : Nat → Nat) (hostLE : Bool) (fid : Sink) (P : NpArr) :
    statusOK (capec_WriteRecord_bs4_f1 d2f hostLE fid P) := by
  unfold statusOK capec_WriteRecord_bs4_f1
  split
  · exact Or.inr rfl
  · exact Or.inl rfl

lemma st_ne4_f2 (d2f : Nat → Nat) (hostLE : Bool) (fid : Sink) (P : NpArr) :
    statusOK (capec_WriteRecord_ne4_f2 d2f hostLE fid P) := by
  unfold statusOK capec_WriteRecord_ne4_f2
  split
  · exact Or.inr rfl
  · exact Or.inl rfl

lemma st_bs4_f2 (d2f : Nat → Nat) (hostLE : Bool) (fid : Sink) (P : NpArr) :
    statusOK (capec_WriteRecord_bs4_f2 d2f hostLE fid P) := by
  unfold statusOK capec_WriteRecord_bs4_f2
  split
  · exact Or.inr rfl
  · exact Or.inl rfl

lemma st_ne4_f3 (d2f : Nat → Nat) (hostLE : Bool) (fid : Sink) (P : NpArr) :
    statusOK (capec_WriteRecord_ne4_f3 d2f hostLE fid P) := by
  unfold statusOK capec_WriteRecord_ne4_f3
  split
  · exact Or.inr rfl
  · exact Or.inl rfl

lemma st_bs4_f3 (d2f : Nat → Nat) (hostLE : Bool) (fid : Sink) (P : NpArr) :
    statusOK (capec_WriteRecord_bs4_f3 d2f hostLE fid P) := by
  unfold statusOK capec_WriteRecord_bs4_f3
  split
  · exact Or.inr rfl
  · exact Or.inl rfl

lemma st_ne8_f1 (hostLE : Bool) (fid : Sink) (P : NpArr) :
    statusOK (capec_WriteRecord_ne8_f1 hostLE fid P) := by
  unfold statusOK capec_WriteRecord_ne8_f1
  split
  · exact Or.inr rfl
  · exact Or.inl rfl

lemma st_bs8_f1 (hostLE : Bool) (fid : Sink) (P : NpArr) :
    statusOK (capec_WriteRecord_bs8_f1 hostLE fid P) := by
  unfold statusOK capec_WriteRecord_bs8_f1
  split
  · exact Or.inr rfl
  · exact Or.inl rfl

lemma st_ne8_f2 (hostLE : Bool) (fid : Sink) (P : NpArr) :
    statusOK (capec_WriteRecord_ne8_f2 hostLE fid P) := by
  unfold statusOK capec_WriteRecord_ne8_f2
  split
  · exact Or.inr rfl
  · exact Or.inl rfl

lemma st_bs8_f2 (hostLE : Bool) (fid : Sink) (P : NpArr) :
    statusOK (capec_WriteRecord_bs8_f2 hostLE fid P) := by
  unfold statusOK capec_WriteRecord_bs8_f2
  split
  · exact Or.inr rfl
  · exact Or.inl rfl

lemma st_ne8_f3 (hostLE : Bool) (fid : Sink) (P : NpArr) :
    statusOK (capec_WriteRecord_ne8_f3 hostLE fid P) := by
  unfold statusOK capec_WriteRecord_ne8_f3
  split
  · exact Or.inr rfl
  · exact Or.inl rfl

lemma st_bs8_f3 (hostLE : Bool) (fid : Sink) (P : NpArr) :
    statusOK (capec_WriteRecord_bs8_f3 hostLE fid P) := by
  unfold statusOK capec_WriteRecord_bs8_f3
  split
  · exact Or.inr rfl
  · exact Or.inl rfl

lemma st_b4_i1 (hostLE : Bool) (fid : Sink) (P : NpArr) :
    statusOK (capec_WriteRecord_b4_i1 hostLE fid P) := by
  cases hostLE
  · exact st_ne4_i1 false fid P
  · exact st_bs4_i1 true fid P

lemma st_lb4_i1 (hostLE : Bool) (fid : Sink) (P : NpArr) :
    statusOK (capec_WriteRecord_lb4_i1 hostLE fid P) := by
  cases hostLE
  · exact st_bs4_i1 false fid P
  · exact st_ne4_i1 true fid P

lemma st_b4_i2 (hostLE : Bool) (fid : Sink) (P : NpArr) :
    statusOK (capec_WriteRecord_b4_i2 hostLE fid P) := by
  cases hostLE
  · exact st_ne4_i2 false fid P
  · exact st_bs4_i2 true fid P

lemma st_lb4_i2 (hostLE : Bool) (fid : Sink) (P : NpArr) :
    statusOK (capec_WriteRecord_lb4_i2 hostLE fid P) := by
  cases hostLE
  · exact st_bs4_i2 false fid P
  · exact st_ne4_i2 true fid P

lemma st_b4_i3 (hostLE : Bool) (fid : Sink) (P : NpArr) :
    statusOK (capec_WriteRecord_b4_i3 hostLE fid P) := by
  cases hostLE
  · exact st_ne4_i3 false fid P
  · exact st_bs4_i3 true fid P

lemma st_lb4_i3 (hostLE : Bool) (fid : Sink) (P : NpArr) :
    statusOK (capec_WriteRecord_lb4_i3 hostLE fid P) := by
  cases hostLE
  · exact st_bs4_i3 false fid P
  · exact st_ne4_i3 true fid P

lemma st_b4_f1 (d2f : Nat → Nat) (hostLE : Bool) (fid : Sink) (P : NpArr) :
    statusOK (capec_WriteRecord_b4_f1 d2f hostLE fid P) := by
  cases hostLE
  · exact st_ne4_f1 d2f false fid P
  · exact st_bs4_f1 d2f true fid P

lemma st_lb4_f1 (d2f : Nat → Nat) (hostLE : Bool) (fid : Sink) (P : NpArr) :
    statusOK (capec_WriteRecord_lb4_f1 d2f hostLE fid P) := by
  cases hostLE
  · exact st_bs4_f1 d2f false fid P
  · exact st_ne4_f1 d2f true fid P

lemma st_b4_f2 (d2f : Nat → Nat) (hostLE : Bool) (fid : Sink) (P : NpArr) :
    statusOK (capec_WriteRecord_b4_f2 d2f hostLE fid P) := by
  cases hostLE
  · exact st_ne4_f2 d2f false fid P
  · exact st_bs4_f2 d2f true fid P

lemma st_lb4_f2 (d2f : Nat → Nat) (hostLE : Bool) (fid : Sink) (P : NpArr) :
    statusOK (capec_WriteRecord_lb4_f2 d2f hostLE fid P) := by
  cases hostLE
  · exact st_bs4_f2 d2f false fid P
  · exact st_ne4_f2 d2f true fid P

lemma st_b4_f3 (d2f : Nat → Nat) (hostLE : Bool) (fid : Sink) (P : NpArr) :
    statusOK (capec_WriteRecord_b4_f3 d2f hostLE fid P) := by
  cases hostLE
  · exact st_ne4_f3 d2f false fid P
  · exact st_bs4_f3 d2f true fid P

lemma st_lb4_f3 (d2f : Nat → Nat) (hostLE : Bool) (fid : Sink) (P : NpArr) :
    statusOK (capec_WriteRecord_lb4_f3 d2f hostLE fid P) := by
  cases hostLE
  · exact st_bs4_f3 d2f false fid P
  · exact st_ne4_f3 d2f true fid P

lemma st_b8_f1 (hostLE : Bool) (fid : Sink) (P : NpArr) :
    statusOK (capec_WriteRecord_b8_f1 hostLE fid P) := by
  cases hostLE
  · exact st_ne8_f1 false fid P
  · exact st_bs8_f1 true fid P

lemma st_lb8_f1 (hostLE : Bool) (fid : Sink) (P : NpArr) :
    statusOK (capec_WriteRecord_lb8_f1 hostLE fid P) := by
  cases hostLE
  · exact st_bs8_f1 false fid P
  · exact st_ne8_f1 true fid P

lemma st_b8_f2 (hostLE : Bool) (fid : Sink) (P : NpArr) :
    statusOK (capec_WriteRecord_b8_f2 hostLE fid P) := by
  cases hostLE
  · exact st_ne8_f2 false fid P
  · exact st_bs8_f2 true fid P

lemma st_lb8_f2 (hostLE : Bool) (fid : Sink) (P : NpArr) :
    statusOK (capec_WriteRecord_lb8_f2 hostLE fid P) := by
  cases hostLE
  · exact st_bs8_f2 false fid P
  · exact st_ne8_f2 true fid P

lemma st_b8_f3 (d2f : Nat → Nat) (hostLE : Bool) (fid : Sink) (P : NpArr) :
    statusOK (capec_WriteRecord_b8_f3 d2f hostLE fid P) := by
  cases hostLE
  · exact st_ne4_f3 d2f false fid P
  · exact st_bs4_f3 d2f true fid P

lemma st_lb8_f3 (d2f : Nat → Nat) (hostLE : Bool) (fid : Sink) (P : NpArr) :
    statusOK (capec_WriteRecord_lb8_f3 d2f hostLE fid P) := by
  cases hostLE
  · exact st_bs4_f3 d2f false fid P
  · exact st_ne4_f3 d2f true fid P

/-- C10: every record writer of the codec returns only status 0
(success) or status 2 (wrong rank) — no execution path returns the
scalar-level I/O-failure status 1 — and once the rank check passes the
trailing record marker is always the last attempted fwrite and the
status is 0, for every sink, regardless of whether the leading marker or
any payload fwrite was short (shown for the cited writers ne4_i1 and
bs8_f3). -/
theorem C10_status_and_unconditional_trailer (d2f : Nat → Nat) (hostLE : Bool)
    (fid : Sink) (P : NpArr) :
    (statusOK (capec_WriteRecord_ne4_i1 hostLE fid P) ∧
     statusOK (capec_WriteRecord_bs4_i1 hostLE fid P) ∧
     statusOK (capec_WriteRecord_b4_i1 hostLE fid P) ∧
     statusOK (capec_WriteRecord_lb4_i1 hostLE fid P) ∧
     statusOK (capec_WriteRecord_ne4_i2 hostLE fid P) ∧
     statusOK (capec_WriteRecord_bs4_i2 hostLE fid P) ∧
     statusOK (capec_WriteRecord_b4_i2 hostLE fid P) ∧
     statusOK (capec_WriteRecord_lb4_i2 hostLE fid P) ∧
     statusOK (capec_WriteRecord_ne4_i3 hostLE fid P) ∧
     statusOK (capec_WriteRecord_bs4_i3 hostLE fid P) ∧
     statusOK (capec_WriteRecord_b4_i3 hostLE fid P) ∧
     statusOK (capec_WriteRecord_lb4_i3 hostLE fid P) ∧
     statusOK (capec_WriteRecord_ne4_f1 d2f hostLE fid P) ∧
     statusOK (capec_WriteRecord_bs4_f1 d2f hostLE fid P) ∧
     statusOK (capec_WriteRecord_b4_f1 d2f hostLE fid P) ∧
     statusOK (capec_WriteRecord_lb4_f1 d2f hostLE fid P) ∧
     statusOK (capec_WriteRecord_ne4_f2 d2f hostLE fid P) ∧
     statusOK (capec_WriteRecord_bs4_f2 d2f hostLE fid P) ∧
     statusOK (capec_WriteRecord_b4_f2 d2f hostLE fid P) ∧
     statusOK (capec_WriteRecord_lb4_f2 d2f hostLE fid P) ∧
     statusOK (capec_WriteRecord_ne4_f3 d2f hostLE fid P) ∧
     statusOK (capec_WriteRecord_bs4_f3 d2f hostLE fid P) ∧
     statusOK (capec_WriteRecord_b4_f3 d2f hostLE fid P) ∧
     statusOK (capec_WriteRecord_lb4_f3 d2f hostLE fid P) ∧
     statusOK (capec_WriteRecord_ne8_f1 hostLE fid P) ∧
     statusOK (capec_WriteRecord_bs8_f1 hostLE fid P) ∧
     statusOK (capec_WriteRecord_b8_f1 hostLE fid P) ∧
     statusOK (capec_WriteRecord_lb8_f1 hostLE fid P) ∧
     statusOK (capec_WriteRecord_ne8_f2 hostLE fid P) ∧
     statusOK (capec_WriteRecord_bs8_f2 hostLE fid P) ∧
     statusOK (capec_WriteRecord_b8_f2 hostLE fid P) ∧
     statusOK (capec_WriteRecord_lb8_f2 hostLE fid P) ∧
     statusOK (capec_WriteRecord_ne8_f3 hostLE fid P) ∧
     statusOK (capec_WriteRecord_bs8_f3 hostLE fid P) ∧
     statusOK (capec_WriteRecord_b8_f3 d2f hostLE fid P) ∧
     statusOK (capec_WriteRecord_lb8_f3 d2f hostLE fid P)) ∧
    (P.dims.length = 1 →
      (capec_WriteRecord_ne4_i1 hostLE fid P).1.atts.getLast? =
        some (mem4 hostLE (P.dims.getD 0 0 * 4 % 2^32)) ∧
      (capec_WriteRecord_ne4_i1 hostLE fid P).2 = 0) ∧
    (P.dims.length = 3 →
      (capec_WriteRecord_bs8_f3 hostLE fid P).1.atts.getLast? =
        some (mem4 hostLE
          (bswap32 (P.dims.getD 0 0 * P.dims.getD 1 0 * P.dims.getD 2 0 * 8 % 2^32))) ∧
      (capec_WriteRecord_bs8_f3 hostLE fid P).2 = 0) := by
  refine ⟨⟨st_ne4_i1 hostLE fid P, st_bs4_i1 hostLE fid P, st_b4_i1 hostLE fid P,
    st_lb4_i1 hostLE fid P, st_ne4_i2 hostLE fid P, st_bs4_i2 hostLE fid P,
    st_b4_i2 hostLE fid P, st_lb4_i2 hostLE fid P, st_ne4_i3 hostLE fid P,
    st_bs4_i3 hostLE fid P, st_b4_i3 hostLE fid P, st_lb4_i3 hostLE fid P,
    st_ne4_f1 d2f hostLE fid P, st_bs4_f1 d2f hostLE fid P, st_b4_f1 d2f hostLE fid P,
    st_lb4_f1 d2f hostLE fid P, st_ne4_f2 d2f hostLE fid P, st_bs4_f2 d2f hostLE fid P,
    st_b4_f2 d2f hostLE fid P, st_lb4_f2 d2f hostLE fid P, st_ne4_f3 d2f hostLE fid P,
    st_bs4_f3 d2f hostLE fid P, st_b4_f3 d2f hostLE fid P, st_lb4_f3 d2f hostLE fid P,
    st_ne8_f1 hostLE fid P, st_bs8_f1 hostLE fid P, st_b8_f1 hostLE fid P,
    st_lb8_f1 hostLE fid P, st_ne8_f2 hostLE fid P, st_bs8_f2 hostLE fid P,
    st_b8_f2 hostLE fid P, st_lb8_f2 hostLE fid P, st_ne8_f3 hostLE fid P,
    st_bs8_f3 hostLE fid P, st_b8_f3 d2f hostLE fid P, st_lb8_f3 d2f hostLE fid P⟩,
    ?_, ?_⟩
  · intro h1
    have e1 : capec_WriteRecord_ne4_i1 hostLE fid P =
        ((fwrite (writeList (fwrite fid (mem4 hostLE (P.dims.getD 0 0 * 4 % 2^32))).1
            ((List.range (P.dims.getD 0 0)).map fun i => mem4 hostLE (P.get i 0 0 % 2^32)))
          (mem4 hostLE (P.dims.getD 0 0 * 4 % 2^32))).1, 0) := by
      unfold capec_WriteRecord_ne4_i1
      rw [if_neg (by omega)]
    rw [e1]
    refine ⟨?_, rfl⟩
    rw [fwrite_atts]
    exact getLast_append_one _ _
  · intro h3
    have e2 : capec_WriteRecord_bs8_f3 hostLE fid P =
        ((fwrite (writeList (fwrite fid (mem4 hostLE
            (bswap32 (P.dims.getD 0 0 * P.dims.getD 1 0 * P.dims.getD 2 0 * 8 % 2^32)))).1
            (((List.range (P.dims.getD 0 0)).map fun j =>
              ((List.range (P.dims.getD 1 0)).map fun k =>
                (List.range (P.dims.getD 2 0)).map fun l =>
                  mem8 hostLE (bswap64 (P.get j k l % 2^64))).flatten).flatten))
          (mem4 hostLE
            (bswap32 (P.dims.getD 0 0 * P.dims.getD 1 0 * P.dims.getD 2 0 * 8 % 2^32)))).1,
         0) := by
      unfold capec_WriteRecord_bs8_f3
      rw [if_neg (by omega)]
    rw [e2]
    refine ⟨?_, rfl⟩
    rw [fwrite_atts]
    exact getLast_append_one _ _

/-- C10 witness: a rank-1 int view on a sink that dies after the leading
marker (the payload write is short, yet the trailing marker is still the
last attempted write and the status is 0), and a rank-3 double view on a
sink that accepts nothing at all. -/
theorem C10_witness :
    (capec_WriteRecord_ne4_i1 true ⟨4, [], []⟩ ⟨[1], fun _ _ _ => 5⟩).1.atts.getLast? =
      some [4, 0, 0, 0] ∧
    (capec_WriteRecord_ne4_i1 true ⟨4, [], []⟩ ⟨[1], fun _ _ _ => 5⟩).2 = 0 ∧
    (capec_WriteRecord_bs8_f3 true ⟨0, [], []⟩ ⟨[1, 1, 1], fun _ _ _ => 6⟩).1.atts.getLast? =
      some [0, 0, 0, 8] ∧
    (capec_WriteRecord_bs8_f3 true ⟨0, [], []⟩ ⟨[1, 1, 1], fun _ _ _ => 6⟩).2 = 0 := by
  have h1 := C10_status_and_unconditional_trailer (fun x => x) true ⟨4, [], []⟩
    ⟨[1], fun _ _ _ => 5⟩
  have h2 := C10_status_and_unconditional_trailer (fun x => x) true ⟨0, [], []⟩
    ⟨[1, 1, 1], fun _ _ _ => 6⟩
  obtain ⟨a1, a2⟩ := h1.2.1 (by decide)
  obtain ⟨b1, b2⟩ := h2.2.2 (by decide)
  exact ⟨a1, a2, b1, b2⟩
